import Mathlib

set_option linter.unusedVariables false

/-!
Shallow embedding of `src/SubscriptionManager.py` (class `SubscriptionManager`).

Modelling conventions:
* Python `dict` is modelled as an association list with the keys kept in
  insertion order.  `dictGet` is `d.get(k)` / `d[k]`, `dictSet` is
  `d[k] = v` (replace the existing binding, else append), `dictDel` is
  `del d[k]` (remove the first — in a real dict, unique — binding).
* `datetime` values are integers counting seconds; `timedelta(days = n)`
  is `n * 86400`; `datetime.now()` is an explicit `now` argument.
* An HTTP interaction is an oracle value of type `Except PyExc r`:
  `.ok` is a response that arrived, `.error` is an exception raised by the
  client library.  `PyExc.clientError` records whether the exception is an
  instance of `aiohttp.ClientError` (the class caught in
  `fetch_subscription_data`); `except Exception` catches every modelled
  exception.  `BaseException`s that are not `Exception`s (process-control
  signals) are outside the model.
* `logger.info/warning/error` calls append a structured `LogEntry` to the
  state; the entry carries the same data as the formatted message.
* A raised exception escaping a method is the method returning
  `Except.error`; methods that cannot raise return plain values.
-/

namespace SubMgr

/-- `d.get(k)` on a Python dict modelled as an association list:
the value at the first binding of `k`, if any. -/
def dictGet {β : Type} : List (String × β) → String → Option β
  | [], _ => none
  | (k', v) :: rest, k => if k' = k then some v else dictGet rest k

/-- `d[k] = v` on a Python dict: replace the value at the first binding of
`k`, or append a new binding at the end (insertion order). -/
def dictSet {β : Type} : List (String × β) → String → β → List (String × β)
  | [], k, v => [(k, v)]
  | (k', v') :: rest, k, v =>
      if k' = k then (k, v) :: rest else (k', v') :: dictSet rest k v

/-- `del d[k]` on a Python dict: drop the first binding of `k`
(in a real dict the only one, keys being unique). -/
def dictDel {β : Type} : List (String × β) → String → List (String × β)
  | [], _ => []
  | (k', v') :: rest, k =>
      if k' = k then rest else (k', v') :: dictDel rest k

/-- The keys of a Python dict, in insertion order (what `for x in d` and
`x in d` see). -/
def dictKeys {β : Type} (d : List (String × β)) : List String :=
  d.map Prod.fst

/-- A Python exception (an instance of `Exception`).  `clientError` is
true when the exception is an instance of `aiohttp.ClientError`. -/
structure PyExc where
  name : String
  msg : String
  clientError : Bool
  deriving DecidableEq

/-- Stand-in for a decoded JSON object payload. -/
abbrev Payload := List (String × String)

/-- An HTTP response to the GET in `fetch_subscription_data`: its status
and the outcome of `await response.json()` (which may itself raise). -/
structure FetchResp where
  status : Nat
  jsonResult : Except PyExc Payload

/-- One tracked subscription record, as built at
`{'status': 'active', 'expiry': datetime.now() + timedelta(days=30)}`. -/
structure SubscriptionRecord where
  status : String
  expiry : Int
  deriving DecidableEq

/-- `self.subscriptions`: platform → (subscription_id → record). -/
abbrev Registry := List (String × List (String × SubscriptionRecord))

/-- A structured log line; each constructor is one `logger.…` call site in
the source, carrying the data interpolated into the message. -/
inductive LogEntry where
  | errFetchStatus (platform : String) (status : Nat)
  | errClient (msg : String)
  | infoRenewed (subscriptionId platform : String)
  | errRenewStatus (subscriptionId platform : String) (status : Nat)
  | errRenewExc (msg : String)
  | infoChecking (platform : String)
  | warnUnsupported (platform : String)
  | infoAdded (subscriptionId platform : String)
  | infoRemoved (subscriptionId platform : String)
  | errCritical (msg : String)
  deriving DecidableEq

/-- The mutable fields of a `SubscriptionManager` together with the log it
has emitted. -/
structure ManagerState where
  subscriptions : Registry
  log : List LogEntry
  deriving DecidableEq

/-- `self.platforms = ['PlatformA', 'PlatformB', 'PlatformC']`. -/
def platforms : List String := ["PlatformA", "PlatformB", "PlatformC"]

/-- The state right after `__init__`: empty registry, nothing logged. -/
def initialState : ManagerState := { subscriptions := [], log := [] }

/-- The modules imported at the top of `SubscriptionManager.py`
(`typing`, `logging`, `datetime` names, `aiohttp`).  `asyncio` is not
among them. -/
def moduleImports : List String := ["typing", "logging", "datetime", "aiohttp"]

/-- `fetch_subscription_data`: GET the subscription endpoint; on status
200 return the decoded JSON, otherwise log and return `None`; the
surrounding `try` catches exactly `aiohttp.ClientError`, so any other
exception (from the GET or from `response.json()`) propagates. -/
def fetch_subscription_data (st : ManagerState) (platform subscriptionId : String)
    (net : Except PyExc FetchResp) : Except PyExc (Option Payload) × ManagerState :=
  match net with
  | Except.ok resp =>
      if resp.status = 200 then
        match resp.jsonResult with
        | Except.ok p => (Except.ok (some p), st)
        | Except.error e =>
            if e.clientError then
              (Except.ok none, { st with log := st.log ++ [LogEntry.errClient e.msg] })
            else
              (Except.error e, st)
      else
        (Except.ok none,
         { st with log := st.log ++ [LogEntry.errFetchStatus platform resp.status] })
  | Except.error e =>
      if e.clientError then
        (Except.ok none, { st with log := st.log ++ [LogEntry.errClient e.msg] })
      else
        (Except.error e, st)

/-- `renew_subscription`: POST the renewal endpoint; `True` iff status
200; the surrounding `try` catches `Exception`, so every modelled
exception is converted to `False`.  The network oracle is the status of
the POST response, or the exception it raised. -/
def renew_subscription (st : ManagerState) (platform subscriptionId : String)
    (net : Except PyExc Nat) : Except PyExc Bool × ManagerState :=
  match net with
  | Except.ok status =>
      if status = 200 then
        (Except.ok true,
         { st with log := st.log ++ [LogEntry.infoRenewed subscriptionId platform] })
      else
        (Except.ok false,
         { st with log := st.log ++ [LogEntry.errRenewStatus subscriptionId platform status] })
  | Except.error e =>
      (Except.ok false, { st with log := st.log ++ [LogEntry.errRenewExc e.msg] })

/-- The expiry read in `check_for_renewals`:
`self.subscriptions[platform][subscription_id].get('expiry', datetime.now())`.
The `none` fallbacks mirror the `.get` default; in the loop the record is
always present (the id is drawn from the dict's keys). -/
def expiryOrNow (subs : Registry) (platform subscriptionId : String) (now : Int) : Int :=
  match dictGet ((dictGet subs platform).getD []) subscriptionId with
  | some r => r.expiry
  | none => now

/-- The inner loop of `check_for_renewals` over one platform's
subscription ids: renew each id whose expiry is more than 7 days in the
past, collecting the `(platform, id)` pairs for which `renew_subscription`
was invoked. -/
def checkSubs (now : Int) (net : String → String → Except PyExc Nat) (platform : String) :
    List String → ManagerState → List (String × String) × ManagerState
  | [], st => ([], st)
  | sid :: rest, st =>
      if now - 7 * 86400 > expiryOrNow st.subscriptions platform sid now then
        let st1 := (renew_subscription st platform sid (net platform sid)).2
        let tail := checkSubs now net platform rest st1
        ((platform, sid) :: tail.1, tail.2)
      else
        checkSubs now net platform rest st

/-- The outer loop of `check_for_renewals` over `self.platforms`. -/
def checkPlatforms (now : Int) (net : String → String → Except PyExc Nat) :
    List String → ManagerState → List (String × String) × ManagerState
  | [], st => ([], st)
  | p :: rest, st =>
      let st0 : ManagerState := { st with log := st.log ++ [LogEntry.infoChecking p] }
      let here := checkSubs now net p (dictKeys ((dictGet st0.subscriptions p).getD [])) st0
      let tail := checkPlatforms now net rest here.2
      (here.1 ++ tail.1, tail.2)

/-- `check_for_renewals`: for every platform in `self.platforms`, for
every tracked subscription id, renew when
`datetime.now() - timedelta(days=7) > expiry`.  Returns the trace of
`renew_subscription` invocations (the observable POSTs) with the final
state. -/
def check_for_renewals (st : ManagerState) (now : Int)
    (net : String → String → Except PyExc Nat) : List (String × String) × ManagerState :=
  checkPlatforms now net platforms st

/-- `add_subscription`: reject unsupported platforms; if the id is not a
key of `self.subscriptions.get(platform, [])`, execute
`self.subscriptions[platform] = {subscription_id: {...}}` — the source
assigns a fresh one-element dict to the platform key. -/
def add_subscription (st : ManagerState) (platform subscriptionId : String)
    (now : Int) : ManagerState :=
  if platform ∉ platforms then
    { st with log := st.log ++ [LogEntry.warnUnsupported platform] }
  else if subscriptionId ∈ dictKeys ((dictGet st.subscriptions platform).getD []) then
    st
  else
    { st with
      subscriptions :=
        dictSet st.subscriptions platform
          [(subscriptionId, { status := "active", expiry := now + 30 * 86400 })],
      log := st.log ++ [LogEntry.infoAdded subscriptionId platform] }

/-- `remove_subscription`: when the platform is supported and the id is a
key of `self.subscriptions.get(platform, {})`, delete that one binding
from the platform's dict; otherwise fall through (no-op, no exception). -/
def remove_subscription (st : ManagerState) (platform subscriptionId : String) :
    ManagerState :=
  if platform ∈ platforms ∧
      subscriptionId ∈ dictKeys ((dictGet st.subscriptions platform).getD []) then
    { st with
      subscriptions :=
        dictSet st.subscriptions platform
          (dictDel ((dictGet st.subscriptions platform).getD []) subscriptionId),
      log := st.log ++ [LogEntry.infoRemoved subscriptionId platform] }
  else
    st

/-- The `NameError` raised when the body of `run` evaluates
`asyncio.sleep`: the module never imports `asyncio`. -/
def asyncioNameError : PyExc :=
  { name := "NameError", msg := "name asyncio is not defined", clientError := false }

/-- Evaluating `await asyncio.sleep(3600)`: a `NameError` unless `asyncio`
is among the module's imports. -/
def sleepCall : Except PyExc Unit :=
  if "asyncio" ∈ moduleImports then Except.ok () else Except.error asyncioNameError

/-- One iteration of the `while True` body of `run`: the `try` block runs
`check_for_renewals` (total in the model) and then `asyncio.sleep`; an
exception there is caught by `except Exception`, logged, and the handler
runs `asyncio.sleep` again — an exception raised there propagates out of
the loop, terminating `run`.  `.ok` is the state carried into the next
iteration; `.error` is `run` raising to its caller. -/
def runCycleOnce (st : ManagerState) (now : Int)
    (net : String → String → Except PyExc Nat) : Except PyExc ManagerState :=
  let st1 := (check_for_renewals st now net).2
  match sleepCall with
  | Except.ok _ => Except.ok st1
  | Except.error e =>
      let st2 : ManagerState := { st1 with log := st1.log ++ [LogEntry.errCritical e.msg] }
      match sleepCall with
      | Except.ok _ => Except.ok st2
      | Except.error e2 => Except.error e2

/-- A network oracle whose every POST answers HTTP 200. -/
def netAll200 : String → String → Except PyExc Nat := fun _ _ => Except.ok 200

/-- A transport failure that is not an `aiohttp.ClientError`
(e.g. `asyncio.TimeoutError` on a client timeout). -/
def timeoutExc : PyExc := { name := "TimeoutError", msg := "timed out", clientError := false }

/-- A transport failure that is an `aiohttp.ClientError`. -/
def clientErrExc : PyExc := { name := "ClientError", msg := "connection failed", clientError := true }

/-- Keys of the outer dict are unique and keys of every inner dict are
unique — true of every real Python dict, and of every state this class
reaches. -/
def RegistryNodup (subs : Registry) : Prop :=
  (subs.map Prod.fst).Nodup ∧ ∀ pd ∈ subs, (pd.2.map Prod.fst).Nodup

instance (subs : Registry) : Decidable (RegistryNodup subs) := by
  unfold RegistryNodup; infer_instance

/-- The `(platform, id)` pairs `check_for_renewals` posts renewals for,
read off the registry: for each supported platform, the tracked ids whose
expiry is more than 7 days in the past. -/
def dueCalls (subs : Registry) (now : Int) : List (String × String) :=
  platforms.flatMap fun p =>
    ((dictKeys ((dictGet subs p).getD [])).filter
      (fun sid => decide (now - 7 * 86400 > expiryOrNow subs p sid now))).map
      fun sid => (p, sid)

/-- The registry state after `add_subscription('PlatformA', 'sub1')` on a
fresh manager at time 0. -/
def oneSubState : ManagerState := add_subscription initialState "PlatformA" "sub1" 0

/-- An arbitrary state holding one record whose expiry is 7 days and one
second before time 0. -/
def dueState : ManagerState :=
  { subscriptions := [("PlatformA", [("s1", { status := "active", expiry := -604801 })])],
    log := [] }

/-! ### Association-list lemmas -/

@[simp] theorem dictKeys_nil {β : Type} : dictKeys ([] : List (String × β)) = [] := rfl

@[simp] theorem dictKeys_cons {β : Type} (k : String) (v : β) (rest : List (String × β)) :
    dictKeys ((k, v) :: rest) = k :: dictKeys rest := rfl

theorem dictGet_eq_none_of_not_mem_keys {β : Type} {d : List (String × β)} {k : String}
    (h : k ∉ dictKeys d) : dictGet d k = none := by
  induction d with
  | nil => rfl
  | cons kv rest ih =>
      obtain ⟨k', v⟩ := kv
      rw [dictKeys_cons, List.mem_cons] at h
      push_neg at h
      have h1 : k' ≠ k := fun he => h.1 he.symm
      simp [dictGet, h1, ih h.2]

theorem mem_keys_of_dictGet_some {β : Type} {d : List (String × β)} {k : String} {v : β}
    (h : dictGet d k = some v) : k ∈ dictKeys d := by
  induction d with
  | nil => simp [dictGet] at h
  | cons kv rest ih =>
      obtain ⟨k', v'⟩ := kv
      by_cases hk : k' = k
      · rw [dictKeys_cons, hk]
        exact List.mem_cons_self k (dictKeys rest)
      · simp only [dictGet, if_neg hk] at h
        rw [dictKeys_cons]
        exact List.mem_cons_of_mem _ (ih h)

theorem dictGet_some_mem {β : Type} {d : List (String × β)} {k : String} {v : β}
    (h : dictGet d k = some v) : (k, v) ∈ d := by
  induction d with
  | nil => simp [dictGet] at h
  | cons kv rest ih =>
      obtain ⟨k', v'⟩ := kv
      by_cases hk : k' = k
      · subst hk
        simp [dictGet] at h
        simp [h]
      · simp [dictGet, hk] at h
        simp [ih h]

theorem dictGet_dictSet_self {β : Type} (d : List (String × β)) (k : String) (v : β) :
    dictGet (dictSet d k v) k = some v := by
  induction d with
  | nil => simp [dictSet, dictGet]
  | cons kv rest ih =>
      obtain ⟨k', v'⟩ := kv
      by_cases hk : k' = k
      · simp [dictSet, hk, dictGet]
      · simp [dictSet, hk, dictGet, ih]

theorem dictGet_dictSet_ne {β : Type} (d : List (String × β)) {k k' : String} (v : β)
    (h : k' ≠ k) : dictGet (dictSet d k v) k' = dictGet d k' := by
  induction d with
  | nil => simp [dictSet, dictGet, Ne.symm h]
  | cons kv rest ih =>
      obtain ⟨k'', v''⟩ := kv
      by_cases hk : k'' = k
      · subst hk
        simp [dictSet, dictGet, Ne.symm h]
      · simp [dictSet, hk, dictGet, ih]

theorem dictGet_dictDel_ne {β : Type} (d : List (String × β)) {k k' : String}
    (h : k' ≠ k) : dictGet (dictDel d k) k' = dictGet d k' := by
  induction d with
  | nil => rfl
  | cons kv rest ih =>
      obtain ⟨k'', v''⟩ := kv
      by_cases hk : k'' = k
      · subst hk
        simp [dictDel, dictGet, Ne.symm h]
      · simp [dictDel, hk, dictGet, ih]

theorem dictGet_dictDel_self {β : Type} {d : List (String × β)} {k : String}
    (h : (d.map Prod.fst).Nodup) : dictGet (dictDel d k) k = none := by
  induction d with
  | nil => rfl
  | cons kv rest ih =>
      obtain ⟨k', v'⟩ := kv
      simp only [List.map_cons, List.nodup_cons] at h
      by_cases hk : k' = k
      · subst hk
        simp only [dictDel, if_pos rfl]
        exact dictGet_eq_none_of_not_mem_keys (by simpa [dictKeys] using h.1)
      · simp [dictDel, hk, dictGet, ih h.2]

theorem mem_dictSet {β : Type} {d : List (String × β)} {k : String} {v : β}
    {x : String × β} (h : x ∈ dictSet d k v) : x = (k, v) ∨ x ∈ d := by
  induction d with
  | nil => simpa [dictSet] using h
  | cons kv rest ih =>
      obtain ⟨k', v'⟩ := kv
      by_cases hk : k' = k
      · simp [dictSet, hk] at h
        rcases h with h | h
        · exact Or.inl h
        · exact Or.inr (List.mem_cons_of_mem _ h)
      · simp [dictSet, hk] at h
        rcases h with h | h
        · exact Or.inr (by simp [h])
        · rcases ih h with h' | h'
          · exact Or.inl h'
          · exact Or.inr (List.mem_cons_of_mem _ h')

/-! ### Frame lemmas: which operations touch `subscriptions` -/

theorem renew_subscriptions (st : ManagerState) (platform sid : String)
    (net : Except PyExc Nat) :
    (renew_subscription st platform sid net).2.subscriptions = st.subscriptions := by
  cases net with
  | ok status => by_cases h : status = 200 <;> simp [renew_subscription, h]
  | error e => simp [renew_subscription]

theorem fetch_subscriptions (st : ManagerState) (platform sid : String)
    (net : Except PyExc FetchResp) :
    (fetch_subscription_data st platform sid net).2.subscriptions = st.subscriptions := by
  cases net with
  | ok resp =>
      by_cases h : resp.status = 200
      · cases hj : resp.jsonResult with
        | ok p => simp [fetch_subscription_data, h, hj]
        | error e =>
            by_cases hc : e.clientError <;>
              simp [fetch_subscription_data, h, hj, hc]
      · simp [fetch_subscription_data, h]
  | error e => by_cases hc : e.clientError <;> simp [fetch_subscription_data, hc]

theorem checkSubs_subscriptions (now : Int) (net : String → String → Except PyExc Nat)
    (platform : String) (sids : List String) (st : ManagerState) :
    (checkSubs now net platform sids st).2.subscriptions = st.subscriptions := by
  induction sids generalizing st with
  | nil => rfl
  | cons sid rest ih =>
      by_cases h : now - 7 * 86400 > expiryOrNow st.subscriptions platform sid now
      · simp only [checkSubs, if_pos h]
        rw [ih, renew_subscriptions]
      · simp only [checkSubs, if_neg h]
        exact ih st

theorem checkPlatforms_subscriptions (now : Int) (net : String → String → Except PyExc Nat)
    (ps : List String) (st : ManagerState) :
    (checkPlatforms now net ps st).2.subscriptions = st.subscriptions := by
  induction ps generalizing st with
  | nil => rfl
  | cons p rest ih =>
      simp only [checkPlatforms]
      rw [ih, checkSubs_subscriptions]

theorem check_subscriptions (st : ManagerState) (now : Int)
    (net : String → String → Except PyExc Nat) :
    (check_for_renewals st now net).2.subscriptions = st.subscriptions :=
  checkPlatforms_subscriptions now net platforms st

/-! ### The renewal-call trace of `check_for_renewals` -/

theorem checkSubs_calls (now : Int) (net : String → String → Except PyExc Nat)
    (platform : String) (sids : List String) (st : ManagerState) :
    (checkSubs now net platform sids st).1 =
      (sids.filter
        (fun sid => decide (now - 7 * 86400 > expiryOrNow st.subscriptions platform sid now))).map
        (fun sid => (platform, sid)) := by
  induction sids generalizing st with
  | nil => rfl
  | cons sid rest ih =>
      by_cases h : now - 7 * 86400 > expiryOrNow st.subscriptions platform sid now
      · rw [List.filter_cons_of_pos (by simpa using h), List.map_cons]
        simp only [checkSubs, if_pos h]
        rw [ih, renew_subscriptions]
      · rw [List.filter_cons_of_neg (by simpa using h)]
        simp only [checkSubs, if_neg h]
        exact ih st

theorem checkPlatforms_calls (now : Int) (net : String → String → Except PyExc Nat)
    (ps : List String) (st : ManagerState) :
    (checkPlatforms now net ps st).1 =
      ps.flatMap fun p =>
        ((dictKeys ((dictGet st.subscriptions p).getD [])).filter
          (fun sid => decide (now - 7 * 86400 > expiryOrNow st.subscriptions p sid now))).map
          fun sid => (p, sid) := by
  induction ps generalizing st with
  | nil => rfl
  | cons p rest ih =>
      simp only [checkPlatforms, List.flatMap_cons]
      rw [checkSubs_calls, ih, checkSubs_subscriptions]

theorem check_calls (st : ManagerState) (now : Int)
    (net : String → String → Except PyExc Nat) :
    (check_for_renewals st now net).1 = dueCalls st.subscriptions now :=
  checkPlatforms_calls now net platforms st

/-- States reachable from `__init__` by the class's own operations. -/
inductive Reachable : ManagerState → Prop where
  | init : Reachable initialState
  | add (st : ManagerState) (platform sid : String) (now : Int) :
      Reachable st → Reachable (add_subscription st platform sid now)
  | remove (st : ManagerState) (platform sid : String) :
      Reachable st → Reachable (remove_subscription st platform sid)
  | fetch (st : ManagerState) (platform sid : String) (net : Except PyExc FetchResp) :
      Reachable st → Reachable (fetch_subscription_data st platform sid net).2
  | renew (st : ManagerState) (platform sid : String) (net : Except PyExc Nat) :
      Reachable st → Reachable (renew_subscription st platform sid net).2
  | check (st : ManagerState) (now : Int) (net : String → String → Except PyExc Nat) :
      Reachable st → Reachable (check_for_renewals st now net).2

/-! ### Claim theorems -/

/-- C1: for every tracked subscription on a supported platform,
`check_for_renewals` invokes `renew_subscription` on it exactly when
`now - 7 days > expiry`. -/
theorem check_due_renews_iff (st : ManagerState) (now : Int)
    (net : String → String → Except PyExc Nat) (p sid : String) (r : SubscriptionRecord)
    (hp : p ∈ platforms)
    (hr : dictGet ((dictGet st.subscriptions p).getD []) sid = some r) :
    (p, sid) ∈ (check_for_renewals st now net).1 ↔ now - 7 * 86400 > r.expiry := by
  rw [check_calls]
  have hexp : expiryOrNow st.subscriptions p sid now = r.expiry := by
    simp [expiryOrNow, hr]
  constructor
  · intro hmem
    rw [dueCalls, List.mem_flatMap] at hmem
    obtain ⟨q, hq, hmem⟩ := hmem
    rw [List.mem_map] at hmem
    obtain ⟨sid', hs', heq⟩ := hmem
    have hq' : q = p := congrArg Prod.fst heq
    have hs'' : sid' = sid := congrArg Prod.snd heq
    subst hq'; subst hs''
    rw [List.mem_filter] at hs'
    have := of_decide_eq_true hs'.2
    rwa [hexp] at this
  · intro hdue
    rw [dueCalls, List.mem_flatMap]
    refine ⟨p, hp, ?_⟩
    rw [List.mem_map]
    refine ⟨sid, ?_, rfl⟩
    rw [List.mem_filter]
    refine ⟨mem_keys_of_dictGet_some hr, ?_⟩
    rw [hexp]
    exact decide_eq_true hdue

/-- C1 witness: a record whose expiry is 7 days and 1 second before time 0
is renewed by the check cycle at time 0. -/
theorem check_due_renews_iff_witness :
    ("PlatformA", "s1") ∈ (check_for_renewals dueState 0 netAll200).1 :=
  (check_due_renews_iff dueState 0 netAll200 "PlatformA" "s1"
      { status := "active", expiry := -604801 } (by decide) (by decide)).mpr (by decide)

/-- C2 (code-bug evidence): `add_subscription` assigns a fresh
one-element dict to the platform key, so adding `sub2` to a platform
already tracking `sub1` erases `sub1`'s record instead of leaving it
unchanged. -/
theorem add_overwrites_sibling_record :
    dictGet ((dictGet oneSubState.subscriptions "PlatformA").getD []) "sub1"
      = some { status := "active", expiry := 2592000 } ∧
    dictGet
        ((dictGet (add_subscription oneSubState "PlatformA" "sub2" 86400).subscriptions
            "PlatformA").getD []) "sub1" = none ∧
    dictGet
        ((dictGet (add_subscription oneSubState "PlatformA" "sub2" 86400).subscriptions
            "PlatformA").getD []) "sub2"
      = some { status := "active", expiry := 86400 + 2592000 } := by
  decide

/-- C3 counterexample: after `add('PlatformA', 'sub1')` at time 0, the
check cycle 24 days later issues no renewal call at all (the claim says
exactly one): expiry is still 6 days in the future and the code renews
only once `now - 7 days > expiry`. -/
theorem check_at_24_days_no_renewal :
    (check_for_renewals oneSubState (24 * 86400) netAll200).1 = [] ∧
    (check_for_renewals oneSubState (24 * 86400) netAll200).1 ≠ [("PlatformA", "sub1")] := by
  decide

/-- C3 (amended): after `add('PlatformA', 'sub1')` at time 0 an immediate
check issues no renewal call, a check 24 days later still issues none,
and a check 38 days later (more than 7 days past the 30-day expiry)
issues exactly one renewal call, for `('PlatformA', 'sub1')`. -/
theorem renewal_call_timeline :
    (check_for_renewals oneSubState 0 netAll200).1 = [] ∧
    (check_for_renewals oneSubState (24 * 86400) netAll200).1 = [] ∧
    (check_for_renewals oneSubState (38 * 86400) netAll200).1 = [("PlatformA", "sub1")] := by
  decide

/-- C4 counterexample: a transport failure that is not an
`aiohttp.ClientError` (e.g. a client timeout) escapes
`fetch_subscription_data`'s `except aiohttp.ClientError` handler, so
fetch raises to its caller instead of returning `None`. -/
theorem fetch_raises_non_client_error :
    (fetch_subscription_data initialState "PlatformA" "sub1"
        (Except.error timeoutExc)).1 = Except.error timeoutExc := rfl

/-- C4 (amended): `fetch_subscription_data` returns the decoded payload
on HTTP 200, returns `None` on any other status and on any
`aiohttp.ClientError`, and the only exceptions it can raise to its caller
are ones that are not `aiohttp.ClientError` instances. -/
theorem fetch_error_contract (st : ManagerState) (platform sid : String)
    (net : Except PyExc FetchResp) :
    (∀ resp p, net = Except.ok resp → resp.status = 200 → resp.jsonResult = Except.ok p →
      (fetch_subscription_data st platform sid net).1 = Except.ok (some p)) ∧
    (∀ resp, net = Except.ok resp → resp.status ≠ 200 →
      (fetch_subscription_data st platform sid net).1 = Except.ok none) ∧
    (∀ e, net = Except.error e → e.clientError = true →
      (fetch_subscription_data st platform sid net).1 = Except.ok none) ∧
    (∀ e, (fetch_subscription_data st platform sid net).1 = Except.error e →
      e.clientError = false) := by
  refine ⟨?_, ?_, ?_, ?_⟩
  · rintro resp p rfl h200 hjson
    simp [fetch_subscription_data, h200, hjson]
  · rintro resp rfl hne
    simp [fetch_subscription_data, hne]
  · rintro e rfl hc
    simp [fetch_subscription_data, hc]
  · intro e he
    cases net with
    | ok resp =>
        by_cases h200 : resp.status = 200
        · cases hj : resp.jsonResult with
          | ok p => simp [fetch_subscription_data, h200, hj] at he
          | error e' =>
              by_cases hc : e'.clientError
              · simp [fetch_subscription_data, h200, hj, hc] at he
              · have hval : (fetch_subscription_data st platform sid (Except.ok resp)).1
                    = Except.error e' := by
                  simp [fetch_subscription_data, h200, hj, hc]
                rw [hval] at he
                injection he with hee
                subst hee
                simpa using hc
        · simp [fetch_subscription_data, h200] at he
    | error e' =>
        by_cases hc : e'.clientError
        · simp [fetch_subscription_data, hc] at he
        · have hval : (fetch_subscription_data st platform sid (Except.error e')).1
              = Except.error e' := by
            simp [fetch_subscription_data, hc]
          rw [hval] at he
          injection he with hee
          subst hee
          simpa using hc

/-- C4 witness: concrete instances of the three non-raising branches of
`fetch_subscription_data`: 200 with a decoded body, a 503, and a
`ClientError`. -/
theorem fetch_error_contract_witness :
    (fetch_subscription_data initialState "PlatformA" "sub1"
        (Except.ok { status := 200, jsonResult := Except.ok [("plan", "pro")] })).1
      = Except.ok (some [("plan", "pro")]) ∧
    (fetch_subscription_data initialState "PlatformA" "sub1"
        (Except.ok { status := 503, jsonResult := Except.ok [] })).1 = Except.ok none ∧
    (fetch_subscription_data initialState "PlatformA" "sub1"
        (Except.error clientErrExc)).1 = Except.ok none :=
  ⟨(fetch_error_contract initialState "PlatformA" "sub1" _).1 _ _ rfl rfl rfl,
   (fetch_error_contract initialState "PlatformA" "sub1" _).2.1 _ rfl (by decide),
   (fetch_error_contract initialState "PlatformA" "sub1" _).2.2.1 _ rfl rfl⟩

/-- C5: `renew_subscription` returns `True` exactly when the POST came
back with status 200, and returns a boolean (never an exception) on every
modelled outcome, the `except Exception` handler converting any raised
exception to `False`. -/
theorem renew_result_contract (st : ManagerState) (platform sid : String)
    (net : Except PyExc Nat) :
    ((renew_subscription st platform sid net).1 = Except.ok true ↔ net = Except.ok 200) ∧
    ∃ b, (renew_subscription st platform sid net).1 = Except.ok b := by
  cases net with
  | ok status =>
      by_cases h : status = 200
      · subst h
        exact ⟨by simp [renew_subscription], true, by simp [renew_subscription]⟩
      · refine ⟨?_, false, by simp [renew_subscription, h]⟩
        simp [renew_subscription, h]
  | error e =>
      exact ⟨by simp [renew_subscription], false, by simp [renew_subscription]⟩

/-- C5 witness: a 200 response makes `renew_subscription` return `True`. -/
theorem renew_result_contract_witness :
    (renew_subscription initialState "PlatformA" "sub1" (Except.ok 200)).1
      = Except.ok true :=
  (renew_result_contract initialState "PlatformA" "sub1" (Except.ok 200)).1.mpr rfl

/-- C6 (code-bug evidence): `asyncio` is never imported by the module, so
the first `await asyncio.sleep(3600)` of `run` raises `NameError`; the
`except Exception` handler catches it, logs, and then raises the same
`NameError` from its own `asyncio.sleep` — so every iteration of `run`'s
loop, on any state and any network, raises to the caller and the loop
terminates on its first cycle instead of running forever. -/
theorem run_cycle_raises_name_error (st : ManagerState) (now : Int)
    (net : String → String → Except PyExc Nat) :
    runCycleOnce st now net = Except.error asyncioNameError := rfl

/-- C7: every state reachable from `__init__` by the class's operations
has only supported platforms as registry keys. -/
theorem reachable_platform_keys_supported (st : ManagerState) (h : Reachable st) :
    ∀ pd ∈ st.subscriptions, pd.1 ∈ platforms := by
  induction h with
  | init => intro pd hpd; simp [initialState] at hpd
  | add st p sid now hst ih =>
      intro pd hpd
      by_cases hp : p ∈ platforms
      · by_cases htr : sid ∈ dictKeys ((dictGet st.subscriptions p).getD [])
        · rw [add_subscription, if_neg (not_not_intro hp), if_pos htr] at hpd
          exact ih pd hpd
        · rw [add_subscription, if_neg (not_not_intro hp), if_neg htr] at hpd
          simp only at hpd
          rcases mem_dictSet hpd with h' | h'
          · rw [h']; exact hp
          · exact ih pd h'
      · rw [add_subscription, if_pos hp] at hpd
        exact ih pd hpd
  | remove st p sid hst ih =>
      intro pd hpd
      by_cases hc : p ∈ platforms ∧ sid ∈ dictKeys ((dictGet st.subscriptions p).getD [])
      · rw [remove_subscription, if_pos hc] at hpd
        simp only at hpd
        rcases mem_dictSet hpd with h' | h'
        · rw [h']; exact hc.1
        · exact ih pd h'
      · rw [remove_subscription, if_neg hc] at hpd
        exact ih pd hpd
  | fetch st p sid net hst ih =>
      intro pd hpd
      rw [fetch_subscriptions] at hpd
      exact ih pd hpd
  | renew st p sid net hst ih =>
      intro pd hpd
      rw [renew_subscriptions] at hpd
      exact ih pd hpd
  | check st now net hst ih =>
      intro pd hpd
      rw [check_subscriptions] at hpd
      exact ih pd hpd

/-- C7 witness: the invariant, read off at the state reached by one `add`
on a fresh manager. -/
theorem reachable_platform_keys_supported_witness : "PlatformA" ∈ platforms :=
  reachable_platform_keys_supported oneSubState
    (Reachable.add initialState "PlatformA" "sub1" 0 Reachable.init)
    ("PlatformA", [("sub1", { status := "active", expiry := 2592000 })]) (by decide)

/-- C8: neither a fetch, nor a renewal attempt (whatever its outcome),
nor a full check cycle changes `self.subscriptions`; those operations
only read the registry (and append to the log). -/
theorem readers_do_not_mutate_registry (st : ManagerState) (platform sid : String)
    (fnet : Except PyExc FetchResp) (rnet : Except PyExc Nat) (now : Int)
    (cnet : String → String → Except PyExc Nat) :
    (fetch_subscription_data st platform sid fnet).2.subscriptions = st.subscriptions ∧
    (renew_subscription st platform sid rnet).2.subscriptions = st.subscriptions ∧
    (check_for_renewals st now cnet).2.subscriptions = st.subscriptions :=
  ⟨fetch_subscriptions st platform sid fnet,
   renew_subscriptions st platform sid rnet,
   check_subscriptions st now cnet⟩

/-- C9: adding a platform+id pair that is already tracked leaves the
registry unchanged (the membership guard skips the insert; an unsupported
platform only logs). -/
theorem add_idempotent_when_tracked (st : ManagerState) (platform sid : String) (now : Int)
    (h : sid ∈ dictKeys ((dictGet st.subscriptions platform).getD [])) :
    (add_subscription st platform sid now).subscriptions = st.subscriptions := by
  by_cases hp : platform ∈ platforms
  · rw [add_subscription, if_neg (not_not_intro hp), if_pos h]
  · rw [add_subscription, if_pos hp]

/-- C9 witness: re-adding `('PlatformA', 'sub1')` to the state already
tracking it changes nothing in the registry. -/
theorem add_idempotent_when_tracked_witness :
    "sub1" ∈ dictKeys ((dictGet oneSubState.subscriptions "PlatformA").getD []) ∧
    (add_subscription oneSubState "PlatformA" "sub1" 12345).subscriptions
      = oneSubState.subscriptions :=
  ⟨by decide, add_idempotent_when_tracked oneSubState "PlatformA" "sub1" 12345 (by decide)⟩

/-- C10: on a registry with unique keys (true of every Python dict),
`remove_subscription` with a supported platform and tracked id deletes
exactly that one record — lookups of every other pair are unchanged —
and in every other case it is a no-op on the registry (and, being
guard-checked, raises nothing). -/
theorem remove_deletes_exactly (st : ManagerState) (platform sid : String)
    (hnd : RegistryNodup st.subscriptions) :
    ((platform ∈ platforms ∧ sid ∈ dictKeys ((dictGet st.subscriptions platform).getD [])) →
      ∀ p' sid',
        dictGet ((dictGet (remove_subscription st platform sid).subscriptions p').getD [])
            sid' =
          if p' = platform ∧ sid' = sid then none
          else dictGet ((dictGet st.subscriptions p').getD []) sid') ∧
    (¬(platform ∈ platforms ∧ sid ∈ dictKeys ((dictGet st.subscriptions platform).getD [])) →
      (remove_subscription st platform sid).subscriptions = st.subscriptions) := by
  constructor
  · intro hc p' sid'
    have hsub : (remove_subscription st platform sid).subscriptions
        = dictSet st.subscriptions platform
            (dictDel ((dictGet st.subscriptions platform).getD []) sid) := by
      rw [remove_subscription, if_pos hc]
    rw [hsub]
    by_cases hp : p' = platform
    · subst hp
      rw [dictGet_dictSet_self, Option.getD_some]
      by_cases hs : sid' = sid
      · subst hs
        rw [if_pos ⟨rfl, rfl⟩]
        obtain ⟨pd0, hg⟩ : ∃ pd0, dictGet st.subscriptions p' = some pd0 := by
          cases hg : dictGet st.subscriptions p' with
          | some pd0 => exact ⟨pd0, rfl⟩
          | none =>
              exfalso
              rw [hg] at hc
              simp at hc
        rw [hg, Option.getD_some]
        exact dictGet_dictDel_self (hnd.2 (p', pd0) (dictGet_some_mem hg))
      · rw [if_neg (by simp [hs])]
        exact dictGet_dictDel_ne _ hs
    · rw [dictGet_dictSet_ne _ _ hp, if_neg (by simp [hp])]
  · intro hc
    rw [remove_subscription, if_neg hc]

/-- C10 witness: removing the one tracked record empties its slot, and a
remove that misses (untracked id) leaves the registry unchanged. -/
theorem remove_deletes_exactly_witness :
    dictGet
        ((dictGet (remove_subscription oneSubState "PlatformA" "sub1").subscriptions
            "PlatformA").getD []) "sub1" = none ∧
    (remove_subscription oneSubState "PlatformB" "nope").subscriptions
      = oneSubState.subscriptions := by
  constructor
  · have h := (remove_deletes_exactly oneSubState "PlatformA" "sub1" (by decide)).1
      (by decide) "PlatformA" "sub1"
    simpa using h
  · exact (remove_deletes_exactly oneSubState "PlatformB" "nope" (by decide)).2 (by decide)

end SubMgr
